import Mathlib

/-!
Verification of the ConserveBot core (reading simulator + decision engine).

Shallow embedding of the JavaScript source:
* JS numbers are modelled as exact rationals (`ℚ`); all the arithmetic in the
  risk computation and the simulator is `+ - * /`, `Math.max/min`, comparisons,
  `Math.round` and `toFixed`, which are exact over `ℚ`.
* `Math.round x` (round half toward plus infinity) is `jsRound`.
* `Number(x.toFixed(n))` (round half away from zero at `n` decimals) is
  `toFixedQ n`.
* Randomness (`Math.random()`, `randn()`, `rand(a,b)`) is modelled by explicit
  oracle inputs: each tick receives a `TickNoise` record holding the draws the
  source would have sampled, and `_initState` receives an `InitRolls` record.
* Wall-clock time (`Date.now()`) is an explicit `nowMs : ℤ` argument.
* JS string enums (door state, statuses, demo modes, action types) stay
  strings, as in the source.
* Presentational output (insight sentences, action labels/reasons) is omitted
  from the embedded `Assessment`; only the action `type` field, which is the
  part consumed by `applyAction`, is kept.
-/

namespace ConserveBot

/-! ## Shared numeric utilities (backend/src/utils.js) -/

/-- `clamp(n, min, max)` from utils.js: `Math.max(min, Math.min(max, n))`. -/
def clamp (n lo hi : ℚ) : ℚ := max lo (min hi n)

/-- `lerp(a, b, t)` from utils.js. -/
def lerp (a b t : ℚ) : ℚ := a + (b - a) * t

/-- `rand(min, max)` from utils.js, with the `Math.random()` draw `u`
made explicit. -/
def rand (lo hi u : ℚ) : ℚ := lerp lo hi u

/-- `isBetweenInclusive(x, [a, b])` from utils.js. -/
abbrev isBetweenInclusive (x : ℚ) (p : ℚ × ℚ) : Prop := p.1 ≤ x ∧ x ≤ p.2

/-- `mean(nums)` from utils.js (`0` on the empty list). -/
def mean (nums : List ℚ) : ℚ :=
  if nums.length = 0 then 0 else nums.foldl (· + ·) 0 / nums.length

/-- `slope(points)` from utils.js: ordinary least squares of `y` against
seconds elapsed since the first point; `0` with fewer than two points or a
degenerate denominator. -/
def slope (points : List (ℚ × ℚ)) : ℚ :=
  match points with
  | [] => 0
  | [_] => 0
  | p0 :: p1 :: rest =>
    let pts := p0 :: p1 :: rest
    let t0 := p0.1
    let ts := pts.map (fun p => (p.1 - t0) / 1000)
    let ys := pts.map (fun p => p.2)
    let tMean := mean ts
    let yMean := mean ys
    let num := (ts.zip ys).foldl (fun acc q => acc + (q.1 - tMean) * (q.2 - yMean)) 0
    let den := ts.foldl (fun acc t => acc + (t - tMean) ^ 2) 0
    if den = 0 then 0 else num / den

/-- JS `Math.round`: round half toward positive infinity. -/
def jsRound (q : ℚ) : ℤ := ⌊q + 1/2⌋

/-- The integer produced by `toFixed`: round half away from zero
(the sign is split off and the magnitude rounds half up). -/
def jsRoundAway (q : ℚ) : ℤ := if q < 0 then -⌊-q + 1/2⌋ else ⌊q + 1/2⌋

/-- `Number(x.toFixed(n))`: `x` rounded to `n` decimal places. -/
def toFixedQ (n : ℕ) (x : ℚ) : ℚ := (jsRoundAway (x * 10 ^ n) : ℚ) / 10 ^ n

/-- `clamp` specialised to the integer produced by `Math.round` in
`evaluate` (engine.js line 142). -/
def clampZ (n lo hi : ℤ) : ℤ := max lo (min hi n)

/-- Division instrumented to detect a zero denominator (JS would produce
`Infinity`/`NaN` there rather than a number). Used to state that every
division in the risk computation has a nonzero denominator. -/
def divChecked (a b : ℚ) : Option ℚ := if b = 0 then none else some (a / b)

/-! ## Standards table (backend/src/standards.js)

The JS object `STANDARDS_BY_TYPE` is embedded as a finite map over the four
artifact-type keys; `getStandards` is the lookup with the `?? FOSSILS`
fallback. -/

structure RangeStd where
  safe : ℚ × ℚ
  warn : ℚ × ℚ
deriving DecidableEq

structure MaxStd where
  safeMax : ℚ
  warnMax : ℚ
deriving DecidableEq

structure AccessStd where
  maxOpensPerHourSafe : ℚ
  maxOpensPerHourWarn : ℚ
deriving DecidableEq

structure Standards where
  label : String
  temperatureC : RangeStd
  humidityPct : RangeStd
  moisturePct : MaxStd
  access : AccessStd
  vibration : MaxStd
deriving DecidableEq

def FOSSILS_std : Standards :=
  { label := "Fossils"
    temperatureC := { safe := (16, 22), warn := (15, 23) }
    humidityPct := { safe := (40, 55), warn := (35, 60) }
    moisturePct := { safeMax := 5, warnMax := 6 }
    access := { maxOpensPerHourSafe := 2, maxOpensPerHourWarn := 4 }
    vibration := { safeMax := 0.25, warnMax := 0.5 } }

def ORGANIC_std : Standards :=
  { label := "Organic (wood/bone/textile)"
    temperatureC := { safe := (16, 20), warn := (15, 22) }
    humidityPct := { safe := (45, 55), warn := (40, 60) }
    moisturePct := { safeMax := 4, warnMax := 5 }
    access := { maxOpensPerHourSafe := 1, maxOpensPerHourWarn := 3 }
    vibration := { safeMax := 0.2, warnMax := 0.4 } }

def METALLIC_std : Standards :=
  { label := "Metallic artifacts"
    temperatureC := { safe := (16, 22), warn := (15, 23) }
    humidityPct := { safe := (35, 45), warn := (30, 50) }
    moisturePct := { safeMax := 3, warnMax := 4 }
    access := { maxOpensPerHourSafe := 1, maxOpensPerHourWarn := 3 }
    vibration := { safeMax := 0.25, warnMax := 0.5 } }

def STONE_std : Standards :=
  { label := "Stone artifacts"
    temperatureC := { safe := (16, 24), warn := (15, 26) }
    humidityPct := { safe := (40, 60), warn := (35, 65) }
    moisturePct := { safeMax := 6, warnMax := 7 }
    access := { maxOpensPerHourSafe := 3, maxOpensPerHourWarn := 6 }
    vibration := { safeMax := 0.3, warnMax := 0.6 } }

/-- The restriction of `getStandards(artifactType)` to the keys on which the
JS bracket lookup produces a standards entry, extended to a total function by
the `?? FOSSILS` fallback: the four own keys map to their entries and every
other key to the FOSSILS entry.  This is the value the source computes for
every key that is not an inherited member of `Object.prototype`
(`getStandardsJs_eq_entry` below); at an inherited prototype key the source
instead returns the inherited member — see `getStandardsJs`, the full model
of the lookup — and the surrounding code's field accesses throw there, so no
`Reading`/`Assessment` is produced from such a key. -/
def getStandards (artifactType : String) : Standards :=
  if artifactType = "FOSSILS" then FOSSILS_std
  else if artifactType = "ORGANIC" then ORGANIC_std
  else if artifactType = "METALLIC" then METALLIC_std
  else if artifactType = "STONE" then STONE_std
  else FOSSILS_std

/-- A value the JS expression `STANDARDS_BY_TYPE[key]` can evaluate to when
it is not `undefined`: one of the table's own entries, or a member inherited
from `Object.prototype` (a function or object, never nullish, and not a
standards entry). -/
inductive JsLookup where
  | entry (s : Standards)
  | inherited (name : String)
deriving DecidableEq

/-- The property names of `Object.prototype`, which JS bracket lookup on an
object literal consults after the own properties. -/
def objectPrototypeKeys : List String :=
  [r"constructor", r"hasOwnProperty", r"isPrototypeOf", r"propertyIsEnumerable",
   r"toLocaleString", r"toString", r"valueOf", r"__proto__",
   r"__defineGetter__", r"__defineSetter__", r"__lookupGetter__", r"__lookupSetter__"]

/-- `STANDARDS_BY_TYPE[key]` with JS property-lookup semantics: own
properties first, then the prototype chain (`Object.prototype`); `none`
models `undefined`. -/
def STANDARDS_BY_TYPE_lookup (key : String) : Option JsLookup :=
  if key = "FOSSILS" then some (JsLookup.entry FOSSILS_std)
  else if key = "ORGANIC" then some (JsLookup.entry ORGANIC_std)
  else if key = "METALLIC" then some (JsLookup.entry METALLIC_std)
  else if key = "STONE" then some (JsLookup.entry STONE_std)
  else if key ∈ objectPrototypeKeys then some (JsLookup.inherited key)
  else none

/-- `getStandards(artifactType)` as the source computes it:
`STANDARDS_BY_TYPE[artifactType] ?? STANDARDS_BY_TYPE.FOSSILS`.  The `??`
operator replaces only `undefined`/`null` by the FOSSILS entry; an inherited
`Object.prototype` member is not nullish and passes through. -/
def getStandardsJs (artifactType : String) : JsLookup :=
  (STANDARDS_BY_TYPE_lookup artifactType).getD (JsLookup.entry FOSSILS_std)

/-! ## String constants

Action types, door states and demo modes, named so they can be referred to
in statements. -/

def adjustTempDownKey : String := "ADJUST_TEMP_DOWN"
def adjustTempUpKey : String := "ADJUST_TEMP_UP"
def dehumidifyKey : String := "DEHUMIDIFY"
def humidifyKey : String := "HUMIDIFY"
def triggerAirflowKey : String := "TRIGGER_AIRFLOW"
def lockAccessKey : String := "LOCK_ACCESS_10_MIN"

def doorOpenKey : String := "open"
def doorClosedKey : String := "closed"

def normalMode : String := "normal"
def atRiskMode : String := "atRisk"
def remediationMode : String := "remediation"

def fossilsKey : String := "FOSSILS"
def organicKey : String := "ORGANIC"
def metallicKey : String := "METALLIC"
def stoneKey : String := "STONE"
def gemsKey : String := "GEMS"
def constructorKey : String := "constructor"

/-! ## Reading simulator (src/unnamed/part_002, class Simulator) -/

/-- `midpoint([a, b])`. -/
def midpoint (p : ℚ × ℚ) : ℚ := (p.1 + p.2) / 2

/-- The `Reading` snapshot emitted by `Simulator.tick`.  The ISO timestamp
string is represented by the underlying epoch milliseconds. -/
structure Reading where
  timestampMs : ℤ
  temperatureC : ℚ
  humidityPct : ℚ
  moisturePct : ℚ
  doorState : String
  opensPerHour : ℕ
  vibration : ℚ
  accessLocked : Bool
deriving DecidableEq

/-- `this.controls`: actuator biases settable by remediation actions. -/
structure Controls where
  tempBiasC : ℚ
  humidityBiasPct : ℚ
  airflowBoost : ℚ
  accessLockedUntilMs : ℤ
deriving DecidableEq

/-- `this.state`: the simulator's physical state. -/
structure SimState where
  temperatureC : ℚ
  humidityPct : ℚ
  moisturePct : ℚ
  doorState : String
  lastDoorToggleMs : ℤ
  opensInLastHour : List ℤ
  vibration : ℚ
deriving DecidableEq

structure Simulator where
  artifactType : String
  demoMode : String
  controls : Controls
  state : SimState
deriving DecidableEq

/-- The three uniform `rand` draws consumed by `_initState`. -/
structure InitRolls where
  u1 : ℚ
  u2 : ℚ
  u3 : ℚ

/-- `_initState()`: derive the baseline from the standards and draw the
demo-mode dependent starting offset.  `nowMs` stands for the `Date.now()`
call used for `lastDoorToggleMs`. -/
def initState (artifactType demoMode : String) (nowMs : ℤ) (u : InitRolls) : SimState :=
  let std := getStandards artifactType
  let baseT := midpoint std.temperatureC.safe
  let baseH := midpoint std.humidityPct.safe
  let baseM := min (std.moisturePct.safeMax - 0.5) std.moisturePct.safeMax
  let start : ℚ × ℚ × ℚ :=
    if demoMode = remediationMode then
      (baseT + rand 2.5 4.0 u.u1, baseH + rand 8 15 u.u2, baseM + rand 1.5 3.0 u.u3)
    else if demoMode = atRiskMode then
      (baseT + rand 0.5 1.5 u.u1, baseH + rand 3 6 u.u2, baseM + rand 0.5 1.2 u.u3)
    else
      (baseT + rand (-0.4) 0.4 u.u1, baseH + rand (-1.5) 1.5 u.u2, baseM + rand (-0.3) 0.3 u.u3)
  { temperatureC := start.1
    humidityPct := start.2.1
    moisturePct := start.2.2
    doorState := doorClosedKey
    lastDoorToggleMs := nowMs
    opensInLastHour := []
    vibration := 0 }

/-- The constructor `new Simulator({artifactType, demoMode})`: zeroed
controls, then `_initState()`. -/
def Simulator.make (artifactType demoMode : String) (nowMs : ℤ) (u : InitRolls) : Simulator :=
  { artifactType := artifactType
    demoMode := demoMode
    controls := { tempBiasC := 0, humidityBiasPct := 0, airflowBoost := 0, accessLockedUntilMs := 0 }
    state := initState artifactType demoMode nowMs u }

/-- `setArtifactType(artifactType)`: store the new type and `_initState()`. -/
def Simulator.setArtifactType (sim : Simulator) (artifactType : String) (nowMs : ℤ) (u : InitRolls) : Simulator :=
  { sim with
    artifactType := artifactType
    state := initState artifactType sim.demoMode nowMs u }

/-- `setDemoMode(demoMode)`: store the new mode and `_initState()`. -/
def Simulator.setDemoMode (sim : Simulator) (demoMode : String) (nowMs : ℤ) (u : InitRolls) : Simulator :=
  { sim with
    demoMode := demoMode
    state := initState sim.artifactType demoMode nowMs u }

/-- `applyAction(actionType)`; `nowMs` stands for the `Date.now()` call. -/
def Simulator.applyAction (sim : Simulator) (actionType : String) (nowMs : ℤ) : Simulator :=
  let c := sim.controls
  let c' :=
    if actionType = adjustTempDownKey then
      { c with tempBiasC := c.tempBiasC - 0.15 }
    else if actionType = adjustTempUpKey then
      { c with tempBiasC := c.tempBiasC + 0.15 }
    else if actionType = dehumidifyKey then
      { c with humidityBiasPct := c.humidityBiasPct - 0.4,
               airflowBoost := clamp (c.airflowBoost + 0.2) 0 1 }
    else if actionType = humidifyKey then
      { c with humidityBiasPct := c.humidityBiasPct + 0.4 }
    else if actionType = triggerAirflowKey then
      { c with airflowBoost := clamp (c.airflowBoost + 0.25) 0 1 }
    else if actionType = lockAccessKey then
      { c with accessLockedUntilMs := max c.accessLockedUntilMs (nowMs + 10 * 60000) }
    else c
  { sim with controls := c' }

/-- The demo-mode drift targets of `tick` (temperature, humidity). -/
def driftFor (demoMode : String) : ℚ × ℚ :=
  if demoMode = atRiskMode then (0.004, 0.02)
  else if demoMode = remediationMode then (-0.002, -0.01)
  else (0, 0)

/-- The door open/close logic of `tick` (part_002 lines 157-173), returning
the new door state, the new last-toggle time, and the recorded open events
(before the trailing-hour pruning).  `toggleRoll` is the `Math.random()`
draw. -/
def doorStep (sim : Simulator) (nowMs : ℤ) (toggleRoll : ℚ) : String × ℤ × List ℤ :=
  let accessLocked := nowMs < sim.controls.accessLockedUntilMs
  let canToggle := nowMs - sim.state.lastDoorToggleMs > 10000
  if ¬accessLocked ∧ canToggle then
    let baseChance : ℚ :=
      if sim.demoMode = normalMode then 0.01
      else if sim.demoMode = atRiskMode then 0.03 else 0.05
    let toggleChance := if sim.state.doorState = doorClosedKey then baseChance else 0.08
    if toggleRoll < toggleChance then
      let newDoor := if sim.state.doorState = doorClosedKey then doorOpenKey else doorClosedKey
      (newDoor, nowMs,
        if newDoor = doorOpenKey then sim.state.opensInLastHour ++ [nowMs]
        else sim.state.opensInLastHour)
    else
      (sim.state.doorState, sim.state.lastDoorToggleMs, sim.state.opensInLastHour)
  else if accessLocked ∧ sim.state.doorState = doorOpenKey then
    (doorClosedKey, nowMs, sim.state.opensInLastHour)
  else
    (sim.state.doorState, sim.state.lastDoorToggleMs, sim.state.opensInLastHour)

/-- The random draws consumed by one `tick`:
`randn()` noise for temperature/humidity/moisture, the door-toggle roll,
the vibration bump roll and magnitude, and the vibration `randn()` noise. -/
structure TickNoise where
  nT : ℚ
  nH : ℚ
  nM : ℚ
  toggleRoll : ℚ
  bumpRoll : ℚ
  bumpMag : ℚ
  nV : ℚ

/-- `tick(nowMs)` (part_002 lines 129-195): advance the physical state one
step and emit a `Reading`. -/
def Simulator.tick (sim : Simulator) (nowMs : ℤ) (z : TickNoise) : Reading × Simulator :=
  let std := getStandards sim.artifactType
  let drift := driftFor sim.demoMode
  let t1 := sim.state.temperatureC + z.nT * 0.03 + drift.1 + sim.controls.tempBiasC * 0.02
  let airflowEffect := sim.controls.airflowBoost * (-0.03)
  let h1 := sim.state.humidityPct + z.nH * 0.10 + drift.2
    + sim.controls.humidityBiasPct * 0.03 + airflowEffect
  let moistureTarget := (h1 - midpoint std.humidityPct.safe) * 0.04
    + min (std.moisturePct.safeMax - 0.8) std.moisturePct.safeMax
  let m1 := sim.state.moisturePct + (moistureTarget - sim.state.moisturePct) * 0.02 + z.nM * 0.02
  let t2 := clamp t1 5 35
  let h2 := clamp h1 5 95
  let m2 := clamp m1 0 20
  let accessLocked := nowMs < sim.controls.accessLockedUntilMs
  let d := doorStep sim nowMs z.toggleRoll
  let opens2 := d.2.2.filter (fun t => nowMs - 3600000 ≤ t)
  let bumpChance : ℚ :=
    if sim.demoMode = normalMode then 0.01
    else if sim.demoMode = atRiskMode then 0.02 else 0.03
  let bump := if z.bumpRoll < bumpChance then z.bumpMag else 0
  let v1 := clamp (sim.state.vibration * 0.85 + bump + z.nV * 0.01) 0 1
  ({ timestampMs := nowMs
     temperatureC := toFixedQ 2 t2
     humidityPct := toFixedQ 1 h2
     moisturePct := toFixedQ 2 m2
     doorState := d.1
     opensPerHour := opens2.length
     vibration := toFixedQ 2 v1
     accessLocked := decide accessLocked },
   { sim with
     state :=
       { temperatureC := t2
         humidityPct := h2
         moisturePct := m2
         doorState := d.1
         lastDoorToggleMs := d.2.1
         opensInLastHour := opens2
         vibration := v1 } })

/-- Run `tick` once per back-dated timestamp, threading the state and
consuming one `TickNoise` of the oracle stream per tick. -/
def runTicks : Simulator → (ℕ → TickNoise) → List ℤ → List Reading × Simulator
  | sim, _, [] => ([], sim)
  | sim, zs, t :: ts =>
    let p := Simulator.tick sim t (zs 0)
    let q := runTicks p.2 (fun n => zs (n + 1)) ts
    (p.1 :: q.1, q.2)

/-- Timestamps of the 24-hour history:
`for (i = 24*60; i >= 0; i--) tick(now - i*60_000)`. -/
def history24hTimes (nowMs : ℤ) : List ℤ :=
  (List.range 1441).map (fun (k : ℕ) => nowMs - (1440 - (k : ℤ)) * 60000)

/-- Timestamps of the 7-day history:
`for (i = 7*48; i >= 0; i--) tick(now - i*30*60_000)`. -/
def history7dTimes (nowMs : ℤ) : List ℤ :=
  (List.range 337).map (fun (k : ℕ) => nowMs - (336 - (k : ℤ)) * 1800000)

/-- `generateHistory()`: the 24h series is generated first, then the 7d
series continues from the resulting state. -/
def Simulator.generateHistory (sim : Simulator) (nowMs : ℤ) (zs : ℕ → TickNoise) :
    (List Reading × List Reading) × Simulator :=
  let p := runTicks sim zs (history24hTimes nowMs)
  let q := runTicks p.2 (fun n => zs (1441 + n)) (history7dTimes nowMs)
  ((p.1, q.1), q.2)

/-! ## Decision engine (backend/src/engine.js) -/

/-- `rangeStatus(x, {safe, warn})`. -/
def rangeStatus (x : ℚ) (r : RangeStd) : String :=
  if isBetweenInclusive x r.safe then "safe"
  else if isBetweenInclusive x r.warn then "warn"
  else "danger"

/-- `maxStatus(x, {safeMax, warnMax})`. -/
def maxStatus (x : ℚ) (m : MaxStd) : String :=
  if x ≤ m.safeMax then "safe"
  else if x ≤ m.warnMax then "warn"
  else "danger"

/-- `statusToColor(status)`. -/
def statusToColor (status : String) : String :=
  if status = "safe" then "green"
  else if status = "warn" then "yellow"
  else "red"

/-- `riskFromRange(x, {safe, warn})` (engine.js lines 30-47). -/
def riskFromRange (x : ℚ) (r : RangeStd) : ℚ :=
  if isBetweenInclusive x r.safe then 0
  else if isBetweenInclusive x r.warn then
    let d := if x < r.safe.1 then r.safe.1 - x else if x > r.safe.2 then x - r.safe.2 else 0
    let maxD := if x < r.safe.1 then r.safe.1 - r.warn.1 else r.warn.2 - r.safe.2
    let t := if maxD > 0 then clamp (d / maxD) 0 1 else 1
    25 + 35 * t
  else
    let d := if x < r.warn.1 then r.warn.1 - x else if x > r.warn.2 then x - r.warn.2 else 0
    let t := clamp (d / 5) 0 1
    70 + 30 * t

/-- `riskFromMax(x, {safeMax, warnMax})` (engine.js lines 49-57). -/
def riskFromMax (x : ℚ) (m : MaxStd) : ℚ :=
  if x ≤ m.safeMax then 0
  else if x ≤ m.warnMax then
    25 + 35 * clamp ((x - m.safeMax) / max 0.001 (m.warnMax - m.safeMax)) 0 1
  else
    70 + 30 * clamp ((x - m.warnMax) / 3) 0 1

/-- The access risk contribution (engine.js lines 121-125). -/
def riskAccess (opensPerHour : ℕ) (a : AccessStd) : ℚ :=
  clamp ((opensPerHour : ℚ) / max 1 a.maxOpensPerHourWarn * 60) 0 100

/-- The vibration risk contribution (engine.js line 126). -/
def riskVibration (vibration : ℚ) (v : MaxStd) : ℚ :=
  clamp (vibration / max 0.01 v.warnMax * 60) 0 100

/-- `riskLevel(score)` (engine.js lines 59-64). -/
def riskLevel (score : ℤ) : String :=
  if score < 30 then "LOW"
  else if score < 60 then "MEDIUM"
  else if score < 80 then "HIGH"
  else "CRITICAL"

/-- The access status (engine.js lines 100-104). -/
def accessStatusOf (reading : Reading) (standards : Standards) : String :=
  if (reading.opensPerHour : ℚ) ≤ standards.access.maxOpensPerHourSafe then "safe"
  else if (reading.opensPerHour : ℚ) ≤ standards.access.maxOpensPerHourWarn then "warn"
  else "danger"

/-- The vibration status (engine.js lines 106-110). -/
def vibrationStatusOf (reading : Reading) (standards : Standards) : String :=
  if reading.vibration ≤ standards.vibration.safeMax then "safe"
  else if reading.vibration ≤ standards.vibration.warnMax then "warn"
  else "danger"

/-- The humidity slope over the trend window, in percent per minute
(engine.js lines 112-115). -/
def humiditySlopePerMinOf (recent : List (ℤ × Reading)) : ℚ :=
  slope (recent.map (fun p => ((p.1 : ℚ), p.2.humidityPct))) * 60

/-- The composite risk score (engine.js lines 117-142): weighted base
contributions, the four amplifiers, `Math.round`, clamp to `[0, 100]`. -/
def riskScoreOf (humiditySlopePerMin : ℚ) (reading : Reading) (standards : Standards) : ℤ :=
  clampZ
    (jsRound
      (riskFromRange reading.temperatureC standards.temperatureC * 0.22
        + riskFromRange reading.humidityPct standards.humidityPct * 0.28
        + riskFromMax reading.moisturePct standards.moisturePct * 0.22
        + riskAccess reading.opensPerHour standards.access * 0.16
        + riskVibration reading.vibration standards.vibration * 0.12
        + (if humiditySlopePerMin > 0.08 then 8 else 0)
        + (if humiditySlopePerMin > 0.15 then 12 else 0)
        + (if reading.doorState = doorOpenKey then 4 else 0)
        + (if reading.accessLocked then -3 else 0)))
    0 100

/-- The remediation actions proposed before the risk gate
(engine.js lines 178-214), by action type, in push order. -/
def selectActions (reading : Reading) (standards : Standards) : List String :=
  let humidityStatus := rangeStatus reading.humidityPct standards.humidityPct
  let tempStatus := rangeStatus reading.temperatureC standards.temperatureC
  let humidityActions :=
    if humidityStatus = "danger"
        ∨ (humidityStatus = "warn" ∧ reading.humidityPct > standards.humidityPct.safe.2) then
      [dehumidifyKey, triggerAirflowKey]
    else if humidityStatus = "warn" ∧ reading.humidityPct < standards.humidityPct.safe.1 then
      [humidifyKey]
    else []
  let tempActions :=
    if tempStatus = "danger" ∨ tempStatus = "warn" then
      let mid := (standards.temperatureC.safe.1 + standards.temperatureC.safe.2) / 2
      if reading.temperatureC > mid then [adjustTempDownKey] else [adjustTempUpKey]
    else []
  let accessActions :=
    if accessStatusOf reading standards = "danger" then [lockAccessKey] else []
  humidityActions ++ tempActions ++ accessActions

/-- The engine's evaluation output.  Each status carries the derived
display color `statusToColor status` in the JS output; the insight
sentences and the action labels/reasons are presentational strings and are
omitted; `actions` keeps the action `type` fields in order. -/
structure Assessment where
  riskScore : ℤ
  riskLevel : String
  tempStatus : String
  humidityStatus : String
  moistureStatus : String
  accessStatus : String
  vibrationStatus : String
  humiditySlopePerMin : ℚ
  actions : List String
deriving DecidableEq

/-- `evaluate({reading, standards})` (engine.js lines 95-235), as a pure
function of the trend window `recent`. -/
def evaluate (recent : List (ℤ × Reading)) (reading : Reading) (standards : Standards) :
    Assessment :=
  { riskScore := riskScoreOf (humiditySlopePerMinOf recent) reading standards
    riskLevel := riskLevel (riskScoreOf (humiditySlopePerMinOf recent) reading standards)
    tempStatus := rangeStatus reading.temperatureC standards.temperatureC
    humidityStatus := rangeStatus reading.humidityPct standards.humidityPct
    moistureStatus := maxStatus reading.moisturePct standards.moisturePct
    accessStatus := accessStatusOf reading standards
    vibrationStatus := vibrationStatusOf reading standards
    humiditySlopePerMin := toFixedQ 3 (humiditySlopePerMinOf recent)
    actions :=
      if 45 ≤ riskScoreOf (humiditySlopePerMinOf recent) reading standards then
        selectActions reading standards
      else [] }

/-- The engine object: its only mutable state is the trend window
`this.recent`. -/
structure DecisionEngine where
  recent : List (ℤ × Reading)

/-- `ingest(reading)` (engine.js lines 88-93): append, then prune to the
trailing 15 minutes. -/
def DecisionEngine.ingest (e : DecisionEngine) (reading : Reading) : DecisionEngine :=
  let tMs := reading.timestampMs
  { recent := (e.recent ++ [(tMs, reading)]).filter (fun p => tMs - 15 * 60000 ≤ p.1) }

/-- `evaluate` as a state transformer on the engine object: the method reads
`this.recent` and writes nothing, so the state component is returned
unchanged. -/
def DecisionEngine.evaluateS (e : DecisionEngine) (reading : Reading) (standards : Standards) :
    Assessment × DecisionEngine :=
  (evaluate e.recent reading standards, e)

/-! ## Reference risk definition (claim C1)

These definitions follow the specification's words, to be compared with the
embedding of the source: per-metric contributions, the fixed weights, the
amplifiers, rounding and clamping.  Unlike the source they carry no
degenerate-denominator guards (`t := 1`, `max(0.001, ...)`, `max(1, ...)`,
`max(0.01, ...)`). -/

/-- Reference band-metric risk: 0 inside safe; `25 + 35·clamp(d/maxD, 0, 1)`
across the warn buffer, where `d` is the distance from the nearest safe
bound and `maxD` the distance from that bound to the warn edge on the same
side; `70 + 30·clamp(distance past the warn edge / 5, 0, 1)` outside warn. -/
def refRiskFromRange (x : ℚ) (r : RangeStd) : ℚ :=
  if isBetweenInclusive x r.safe then 0
  else if isBetweenInclusive x r.warn then
    let d := if x < r.safe.1 then r.safe.1 - x else x - r.safe.2
    let maxD := if x < r.safe.1 then r.safe.1 - r.warn.1 else r.warn.2 - r.safe.2
    25 + 35 * clamp (d / maxD) 0 1
  else
    let d := if x < r.warn.1 then r.warn.1 - x else x - r.warn.2
    70 + 30 * clamp (d / 5) 0 1

/-- Reference moisture risk: 0 at or under `safeMax`;
`25 + 35·interpolation` across `[safeMax, warnMax]`; then
`70 + 30·clamp(distance past warnMax / 3, 0, 1)`. -/
def refRiskFromMax (x : ℚ) (m : MaxStd) : ℚ :=
  if x ≤ m.safeMax then 0
  else if x ≤ m.warnMax then
    25 + 35 * clamp ((x - m.safeMax) / (m.warnMax - m.safeMax)) 0 1
  else
    70 + 30 * clamp ((x - m.warnMax) / 3) 0 1

/-- Reference access risk: `value / warnMax · 60` clamped to `[0, 100]`. -/
def refRiskAccess (opensPerHour : ℕ) (a : AccessStd) : ℚ :=
  clamp ((opensPerHour : ℚ) / a.maxOpensPerHourWarn * 60) 0 100

/-- Reference vibration risk: `value / warnMax · 60` clamped to `[0, 100]`. -/
def refRiskVibration (vibration : ℚ) (v : MaxStd) : ℚ :=
  clamp (vibration / v.warnMax * 60) 0 100

/-- Reference composite risk score: weights 0.22/0.28/0.22/0.16/0.12, plus
`+8` if the humidity slope exceeds 0.08 %/min, a further `+12` above
0.15 %/min, `+4` if the door is open, `−3` if access is locked, rounded to
the nearest integer and clamped to `[0, 100]`. -/
def refRiskScore (humiditySlopePerMin : ℚ) (reading : Reading) (standards : Standards) : ℤ :=
  clampZ
    (jsRound
      (refRiskFromRange reading.temperatureC standards.temperatureC * 0.22
        + refRiskFromRange reading.humidityPct standards.humidityPct * 0.28
        + refRiskFromMax reading.moisturePct standards.moisturePct * 0.22
        + refRiskAccess reading.opensPerHour standards.access * 0.16
        + refRiskVibration reading.vibration standards.vibration * 0.12
        + (if humiditySlopePerMin > 0.08 then 8 else 0)
        + (if humiditySlopePerMin > 0.15 then 12 else 0)
        + (if reading.doorState = doorOpenKey then 4 else 0)
        + (if reading.accessLocked then -3 else 0)))
    0 100

/-! ## Checked-division variants (claim C10)

Each risk helper restated with `divChecked` at every division the source
performs, so that totality ("no division by zero") can be stated as the
checked variant always returning `some`. -/

/-- `riskFromRange` with checked divisions. -/
def riskFromRangeChecked (x : ℚ) (r : RangeStd) : Option ℚ :=
  if isBetweenInclusive x r.safe then some 0
  else if isBetweenInclusive x r.warn then
    let d := if x < r.safe.1 then r.safe.1 - x else if x > r.safe.2 then x - r.safe.2 else 0
    let maxD := if x < r.safe.1 then r.safe.1 - r.warn.1 else r.warn.2 - r.safe.2
    if maxD > 0 then (divChecked d maxD).map (fun q => 25 + 35 * clamp q 0 1)
    else some (25 + 35 * 1)
  else
    let d := if x < r.warn.1 then r.warn.1 - x else if x > r.warn.2 then x - r.warn.2 else 0
    (divChecked d 5).map (fun q => 70 + 30 * clamp q 0 1)

/-- `riskFromMax` with checked divisions. -/
def riskFromMaxChecked (x : ℚ) (m : MaxStd) : Option ℚ :=
  if x ≤ m.safeMax then some 0
  else if x ≤ m.warnMax then
    (divChecked (x - m.safeMax) (max 0.001 (m.warnMax - m.safeMax))).map
      (fun q => 25 + 35 * clamp q 0 1)
  else
    (divChecked (x - m.warnMax) 3).map (fun q => 70 + 30 * clamp q 0 1)

/-- The access contribution with a checked division. -/
def riskAccessChecked (opensPerHour : ℕ) (a : AccessStd) : Option ℚ :=
  (divChecked (opensPerHour : ℚ) (max 1 a.maxOpensPerHourWarn)).map
    (fun q => clamp (q * 60) 0 100)

/-- The vibration contribution with a checked division. -/
def riskVibrationChecked (vibration : ℚ) (v : MaxStd) : Option ℚ :=
  (divChecked vibration (max 0.01 v.warnMax)).map (fun q => clamp (q * 60) 0 100)

/-! ## Concrete scenario values used by witnesses and counterexamples -/

def zeroRolls : InitRolls := { u1 := 0, u2 := 0, u3 := 0 }

def zeroNoise : TickNoise :=
  { nT := 0, nH := 0, nM := 0, toggleRoll := 1, bumpRoll := 1, bumpMag := 0, nV := 0 }

/-- The door-open scenario of claim C5: the simulator has recorded opens at
`now − 3700 s`, `now − 1800 s` and `now − 60 s`. -/
def c5Now : ℤ := 10000000

def c5Sim : Simulator :=
  { artifactType := "FOSSILS"
    demoMode := normalMode
    controls := { tempBiasC := 0, humidityBiasPct := 0, airflowBoost := 0, accessLockedUntilMs := 0 }
    state :=
      { temperatureC := 19
        humidityPct := 47
        moisturePct := 4
        doorState := doorClosedKey
        lastDoorToggleMs := c5Now
        opensInLastHour := [c5Now - 3700000, c5Now - 1800000, c5Now - 60000]
        vibration := 0 } }

/-- Claim C4's counterexample scenario: construct, apply `HUMIDIFY`, then
change the artifact type. -/
def c4Sim0 : Simulator := Simulator.make fossilsKey normalMode 0 zeroRolls

def c4Sim1 : Simulator := Simulator.applyAction c4Sim0 humidifyKey 0

def c4Sim2 : Simulator := Simulator.setArtifactType c4Sim1 stoneKey 0 zeroRolls

/-- A simulator holding an existing lock until `t = 2,000,000 ms`, for the
claim C6 witness. -/
def lockSim : Simulator :=
  { artifactType := "FOSSILS"
    demoMode := normalMode
    controls := { tempBiasC := 0, humidityBiasPct := 0, airflowBoost := 0,
                  accessLockedUntilMs := 2000000 }
    state :=
      { temperatureC := 19
        humidityPct := 47
        moisturePct := 4
        doorState := doorClosedKey
        lastDoorToggleMs := 0
        opensInLastHour := []
        vibration := 0 } }

/-- A concrete safe reading, used to instantiate hypotheses in witnesses. -/
def calmReading : Reading :=
  { timestampMs := 0
    temperatureC := 19
    humidityPct := 47
    moisturePct := 4
    doorState := doorClosedKey
    opensPerHour := 1
    vibration := 0.1
    accessLocked := false }

/-! ## Helper lemmas -/

theorem le_clamp (n lo hi : ℚ) : lo ≤ clamp n lo hi := le_max_left _ _

theorem clamp_le (n lo hi : ℚ) (h : lo ≤ hi) : clamp n lo hi ≤ hi :=
  max_le h (min_le_left _ _)

theorem le_jsRoundAway (m : ℤ) (y : ℚ) (h : (m : ℚ) ≤ y) : m ≤ jsRoundAway y := by
  unfold jsRoundAway
  split_ifs with hneg
  · rw [le_neg]
    have := Int.floor_lt.mpr (show -y + 1/2 < ((-m + 1 : ℤ) : ℚ) by push_cast; linarith)
    omega
  · exact Int.le_floor.mpr (by linarith)

theorem jsRoundAway_le (M : ℤ) (y : ℚ) (h : y ≤ M) : jsRoundAway y ≤ M := by
  unfold jsRoundAway
  split_ifs with hneg
  · rw [neg_le]
    exact Int.le_floor.mpr (by push_cast; linarith)
  · have := Int.floor_lt.mpr (show y + 1/2 < ((M + 1 : ℤ) : ℚ) by push_cast; linarith)
    omega

theorem toFixedQ_bounds (n : ℕ) (x : ℚ) (a b : ℤ)
    (ha : (a : ℚ) ≤ x * 10 ^ n) (hb : x * 10 ^ n ≤ (b : ℚ)) :
    (a : ℚ) / 10 ^ n ≤ toFixedQ n x ∧ toFixedQ n x ≤ (b : ℚ) / 10 ^ n := by
  have hpow : (0 : ℚ) < 10 ^ n := by positivity
  have h1 := le_jsRoundAway a _ ha
  have h2 := jsRoundAway_le b _ hb
  unfold toFixedQ
  constructor
  · gcongr
  · gcongr

theorem toFixedQ_mem_5_35 (x : ℚ) (h1 : 5 ≤ x) (h2 : x ≤ 35) :
    5 ≤ toFixedQ 2 x ∧ toFixedQ 2 x ≤ 35 := by
  have h := toFixedQ_bounds 2 x 500 3500 (by push_cast; norm_num; linarith)
    (by push_cast; norm_num; linarith)
  constructor
  · calc (5 : ℚ) = ((500 : ℤ) : ℚ) / 10 ^ 2 := by norm_num
      _ ≤ _ := h.1
  · calc toFixedQ 2 x ≤ ((3500 : ℤ) : ℚ) / 10 ^ 2 := h.2
      _ = 35 := by norm_num

theorem toFixedQ_mem_5_95 (x : ℚ) (h1 : 5 ≤ x) (h2 : x ≤ 95) :
    5 ≤ toFixedQ 1 x ∧ toFixedQ 1 x ≤ 95 := by
  have h := toFixedQ_bounds 1 x 50 950 (by push_cast; norm_num; linarith)
    (by push_cast; norm_num; linarith)
  constructor
  · calc (5 : ℚ) = ((50 : ℤ) : ℚ) / 10 ^ 1 := by norm_num
      _ ≤ _ := h.1
  · calc toFixedQ 1 x ≤ ((950 : ℤ) : ℚ) / 10 ^ 1 := h.2
      _ = 95 := by norm_num

theorem toFixedQ_mem_0_20 (x : ℚ) (h1 : 0 ≤ x) (h2 : x ≤ 20) :
    0 ≤ toFixedQ 2 x ∧ toFixedQ 2 x ≤ 20 := by
  have h := toFixedQ_bounds 2 x 0 2000 (by push_cast; norm_num; linarith)
    (by push_cast; norm_num; linarith)
  constructor
  · calc (0 : ℚ) = ((0 : ℤ) : ℚ) / 10 ^ 2 := by norm_num
      _ ≤ _ := h.1
  · calc toFixedQ 2 x ≤ ((2000 : ℤ) : ℚ) / 10 ^ 2 := h.2
      _ = 20 := by norm_num

theorem toFixedQ_mem_0_1 (x : ℚ) (h1 : 0 ≤ x) (h2 : x ≤ 1) :
    0 ≤ toFixedQ 2 x ∧ toFixedQ 2 x ≤ 1 := by
  have h := toFixedQ_bounds 2 x 0 100 (by push_cast; norm_num; linarith)
    (by push_cast; norm_num; linarith)
  constructor
  · calc (0 : ℚ) = ((0 : ℤ) : ℚ) / 10 ^ 2 := by norm_num
      _ ≤ _ := h.1
  · calc toFixedQ 2 x ≤ ((100 : ℤ) : ℚ) / 10 ^ 2 := h.2
      _ = 1 := by norm_num

theorem riskFromRange_eq_ref (x : ℚ) (r : RangeStd)
    (h0 : r.warn.1 < r.safe.1) (h1 : r.safe.2 < r.warn.2) :
    riskFromRange x r = refRiskFromRange x r := by
  unfold riskFromRange refRiskFromRange
  by_cases hs : isBetweenInclusive x r.safe
  · simp [isBetweenInclusive, hs]
  · by_cases hw : isBetweenInclusive x r.warn
    · by_cases hlt : x < r.safe.1
      · have hmax : (0 : ℚ) < r.safe.1 - r.warn.1 := by linarith
        simp [isBetweenInclusive, hs, hw, hlt, hmax]
      · have hgt : r.safe.2 < x := by
          unfold isBetweenInclusive at hs
          push_neg at hs
          exact hs (not_lt.mp hlt)
        have hmax : (0 : ℚ) < r.warn.2 - r.safe.2 := by linarith
        simp [isBetweenInclusive, hs, hw, hlt, hgt, hmax]
    · by_cases hltw : x < r.warn.1
      · simp [isBetweenInclusive, hs, hw, hltw]
      · have hgtw : r.warn.2 < x := by
          unfold isBetweenInclusive at hw
          push_neg at hw
          exact hw (not_lt.mp hltw)
        simp [isBetweenInclusive, hs, hw, hltw, hgtw]

theorem riskFromMax_eq_ref (x : ℚ) (m : MaxStd)
    (h : (0.001 : ℚ) ≤ m.warnMax - m.safeMax) :
    riskFromMax x m = refRiskFromMax x m := by
  unfold riskFromMax refRiskFromMax
  rw [max_eq_right h]

theorem getStandards_cases (k : String) :
    getStandards k = FOSSILS_std ∨ getStandards k = ORGANIC_std
      ∨ getStandards k = METALLIC_std ∨ getStandards k = STONE_std := by
  unfold getStandards
  split_ifs <;> simp

theorem riskScore_ref_valid (slopePM : ℚ) (reading : Reading) (standards : Standards)
    (ht0 : standards.temperatureC.warn.1 < standards.temperatureC.safe.1)
    (ht1 : standards.temperatureC.safe.2 < standards.temperatureC.warn.2)
    (hh0 : standards.humidityPct.warn.1 < standards.humidityPct.safe.1)
    (hh1 : standards.humidityPct.safe.2 < standards.humidityPct.warn.2)
    (hm : (0.001 : ℚ) ≤ standards.moisturePct.warnMax - standards.moisturePct.safeMax)
    (ha : (1 : ℚ) ≤ standards.access.maxOpensPerHourWarn)
    (hv : (0.01 : ℚ) ≤ standards.vibration.warnMax) :
    riskScoreOf slopePM reading standards = refRiskScore slopePM reading standards := by
  unfold riskScoreOf refRiskScore riskAccess refRiskAccess riskVibration refRiskVibration
  rw [riskFromRange_eq_ref _ _ ht0 ht1, riskFromRange_eq_ref _ _ hh0 hh1,
    riskFromMax_eq_ref _ _ hm, max_eq_right ha, max_eq_right hv]

theorem tick_timestampMs (sim : Simulator) (nowMs : ℤ) (z : TickNoise) :
    ((Simulator.tick sim nowMs z).1).timestampMs = nowMs := rfl

theorem runTicks_length (ts : List ℤ) : ∀ (sim : Simulator) (zs : ℕ → TickNoise),
    ((runTicks sim zs ts).1).length = ts.length := by
  induction ts with
  | nil => intro sim zs; rfl
  | cons t ts ih => intro sim zs; simp [runTicks, ih]

theorem runTicks_timestamps (ts : List ℤ) : ∀ (sim : Simulator) (zs : ℕ → TickNoise),
    ((runTicks sim zs ts).1).map Reading.timestampMs = ts := by
  induction ts with
  | nil => intro sim zs; rfl
  | cons t ts ih => intro sim zs; simp [runTicks, ih, tick_timestampMs]

theorem pairwise_le_map_range (n : ℕ) (f : ℕ → ℤ) (hf : ∀ a b, a < b → f a ≤ f b) :
    ((List.range n).map f).Pairwise (· ≤ ·) := by
  rw [List.pairwise_map]
  exact (List.pairwise_lt_range n).imp (fun hab => hf _ _ hab)

theorem map_sub_mul_pairwise (nowMs last step : ℤ) (hstep : 0 ≤ step) (n : ℕ) :
    ((List.range n).map (fun (k : ℕ) => nowMs - (last - (k : ℤ)) * step)).Pairwise (· ≤ ·) := by
  refine pairwise_le_map_range n _ ?_
  intro a b hab
  have hab' : (a : ℤ) ≤ (b : ℤ) := by exact_mod_cast hab.le
  have hmul : (last - (b : ℤ)) * step ≤ (last - (a : ℤ)) * step :=
    mul_le_mul_of_nonneg_right (by linarith) hstep
  linarith

theorem applyAction_lock_le (sim : Simulator) (a : String) (nowMs : ℤ) :
    sim.controls.accessLockedUntilMs
      ≤ (Simulator.applyAction sim a nowMs).controls.accessLockedUntilMs := by
  unfold Simulator.applyAction
  split_ifs <;> simp [le_max_left]

/-! ## Claim theorems -/

/-- Claim C1: for every artifact-type key (hence every standards entry of the
table) and every reading and trend window, the `riskScore` returned by
`DecisionEngine.evaluate` equals the reference definition written from the
specification: the per-metric contributions (band metrics 0 inside safe,
`25 + 35·t` across the warn buffer, `70 + 30·clamp(d/5, 0, 1)` outside warn;
moisture 0 at or under `safeMax`, `25 + 35·interpolation` across
`[safeMax, warnMax]`, then `70 + 30·clamp(d/3, 0, 1)`; access and vibration
`value / warnMax · 60` clamped to `[0, 100]`) combined with weights
0.22/0.28/0.22/0.16/0.12, plus the amplifiers `+8` (slope > 0.08 %/min),
a further `+12` (slope > 0.15 %/min), `+4` (door open), `−3` (access
locked), rounded to the nearest integer and clamped to `[0, 100]`. -/
theorem claimC1_riskScore_matches_reference (artifactType : String)
    (recent : List (ℤ × Reading)) (reading : Reading) :
    (evaluate recent reading (getStandards artifactType)).riskScore
      = refRiskScore (humiditySlopePerMinOf recent) reading (getStandards artifactType) := by
  rcases getStandards_cases artifactType with h | h | h | h <;> rw [h]
  · exact riskScore_ref_valid _ _ _ (by norm_num [FOSSILS_std]) (by norm_num [FOSSILS_std])
      (by norm_num [FOSSILS_std]) (by norm_num [FOSSILS_std]) (by norm_num [FOSSILS_std])
      (by norm_num [FOSSILS_std]) (by norm_num [FOSSILS_std])
  · exact riskScore_ref_valid _ _ _ (by norm_num [ORGANIC_std]) (by norm_num [ORGANIC_std])
      (by norm_num [ORGANIC_std]) (by norm_num [ORGANIC_std]) (by norm_num [ORGANIC_std])
      (by norm_num [ORGANIC_std]) (by norm_num [ORGANIC_std])
  · exact riskScore_ref_valid _ _ _ (by norm_num [METALLIC_std]) (by norm_num [METALLIC_std])
      (by norm_num [METALLIC_std]) (by norm_num [METALLIC_std]) (by norm_num [METALLIC_std])
      (by norm_num [METALLIC_std]) (by norm_num [METALLIC_std])
  · exact riskScore_ref_valid _ _ _ (by norm_num [STONE_std]) (by norm_num [STONE_std])
      (by norm_num [STONE_std]) (by norm_num [STONE_std]) (by norm_num [STONE_std])
      (by norm_num [STONE_std]) (by norm_num [STONE_std])

/-- Claim C2: the returned actions list is empty whenever the composite
`riskScore` is strictly below 45, even if metrics are in danger, and is the
selected action list unmodified whenever `riskScore ≥ 45`. -/
theorem claimC2_action_gate (recent : List (ℤ × Reading)) (reading : Reading)
    (standards : Standards) :
    (evaluate recent reading standards).actions
      = (if 45 ≤ (evaluate recent reading standards).riskScore then
          selectActions reading standards
        else []) := rfl

/-- Claim C3: every reading emitted by `Simulator.tick` — for any simulator
state whatsoever (any demo mode, any prior ticks, any sequence of
`applyAction` calls) and any noise draws — satisfies
`temperatureC ∈ [5, 35]`, `humidityPct ∈ [5, 95]`, `moisturePct ∈ [0, 20]`
and `vibration ∈ [0, 1]`. -/
theorem claimC3_tick_bounds (sim : Simulator) (nowMs : ℤ) (z : TickNoise) :
    (5 ≤ ((Simulator.tick sim nowMs z).1).temperatureC
      ∧ ((Simulator.tick sim nowMs z).1).temperatureC ≤ 35)
    ∧ (5 ≤ ((Simulator.tick sim nowMs z).1).humidityPct
      ∧ ((Simulator.tick sim nowMs z).1).humidityPct ≤ 95)
    ∧ (0 ≤ ((Simulator.tick sim nowMs z).1).moisturePct
      ∧ ((Simulator.tick sim nowMs z).1).moisturePct ≤ 20)
    ∧ (0 ≤ ((Simulator.tick sim nowMs z).1).vibration
      ∧ ((Simulator.tick sim nowMs z).1).vibration ≤ 1) := by
  refine ⟨?_, ?_, ?_, ?_⟩
  · exact toFixedQ_mem_5_35 _ (le_clamp _ _ _) (clamp_le _ _ _ (by norm_num))
  · exact toFixedQ_mem_5_95 _ (le_clamp _ _ _) (clamp_le _ _ _ (by norm_num))
  · exact toFixedQ_mem_0_20 _ (le_clamp _ _ _) (clamp_le _ _ _ (by norm_num))
  · exact toFixedQ_mem_0_1 _ (le_clamp _ _ _) (clamp_le _ _ _ (by norm_num))

/-- Claim C4 counterexample: `setArtifactType` does **not** reset the
control biases.  After constructing a simulator, applying `HUMIDIFY`
(`humidityBiasPct := 0.4`) and then calling `setArtifactType`, the controls
still carry the bias, unlike reconstruction with the new parameter, which
zeroes them. -/
theorem claimC4_counterexample :
    c4Sim2.controls.humidityBiasPct = 0.4
    ∧ (Simulator.make stoneKey normalMode 0 zeroRolls).controls.humidityBiasPct = 0
    ∧ c4Sim2.controls ≠ (Simulator.make stoneKey normalMode 0 zeroRolls).controls := by
  have h1 : c4Sim2.controls.humidityBiasPct = 0.4 := by
    norm_num [c4Sim2, c4Sim1, c4Sim0, Simulator.setArtifactType, Simulator.applyAction,
      Simulator.make, humidifyKey, adjustTempDownKey, adjustTempUpKey, dehumidifyKey]
    rw [if_neg (by decide), if_neg (by decide), if_neg (by decide)]
  have h2 : (Simulator.make stoneKey normalMode 0 zeroRolls).controls.humidityBiasPct = 0 := by
    simp [Simulator.make]
  refine ⟨h1, h2, fun heq => ?_⟩
  have h3 := congrArg Controls.humidityBiasPct heq
  rw [h1, h2] at h3
  norm_num at h3

/-- Claim C4 (amended): the control biases are never changed by
`Simulator.tick`, and `setArtifactType` / `setDemoMode` reinitialize only
the physical state, leaving the control biases unchanged (they are zeroed
only at construction); only `applyAction` mutates them. -/
theorem claimC4_amended_controls_frame (sim : Simulator) (nowMs : ℤ) (z : TickNoise)
    (ty mode : String) (u : InitRolls) :
    ((Simulator.tick sim nowMs z).2).controls = sim.controls
    ∧ (Simulator.setArtifactType sim ty nowMs u).controls = sim.controls
    ∧ (Simulator.setDemoMode sim mode nowMs u).controls = sim.controls :=
  ⟨rfl, rfl, rfl⟩

/-- Claim C5: the `opensPerHour` field of every reading emitted by
`Simulator.tick` equals the number of recorded door-open events (after this
tick's door logic) whose timestamp lies within the trailing 3,600,000 ms of
`now`; in particular, with recorded opens at `now − 3700 s`, `now − 1800 s`
and `now − 60 s` and no new open this tick, `opensPerHour = 2`. -/
theorem claimC5_opensPerHour_window :
    (∀ (sim : Simulator) (nowMs : ℤ) (z : TickNoise),
      ((Simulator.tick sim nowMs z).1).opensPerHour
        = ((doorStep sim nowMs z.toggleRoll).2.2).countP (fun t => decide (nowMs - 3600000 ≤ t)))
    ∧ ((Simulator.tick c5Sim c5Now zeroNoise).1).opensPerHour = 2 := by
  constructor
  · intro sim nowMs z
    show (((doorStep sim nowMs z.toggleRoll).2.2).filter
      (fun t => decide (nowMs - 3600000 ≤ t))).length = _
    rw [List.countP_eq_length_filter]
  · decide

/-- Claim C6: `applyAction(LOCK_ACCESS_10_MIN)` sets
`accessLockedUntilMs` to `max(current, now + 10 minutes)`; the lock end
time is monotonically non-decreasing across any sequence of `applyAction`
calls; and a second lock whose target is earlier than the existing lock end
leaves the lock end unchanged. -/
theorem claimC6_lock_monotone :
    (∀ (sim : Simulator) (nowMs : ℤ),
      (Simulator.applyAction sim lockAccessKey nowMs).controls.accessLockedUntilMs
        = max sim.controls.accessLockedUntilMs (nowMs + 10 * 60000))
    ∧ (∀ (sim : Simulator) (calls : List (String × ℤ)),
      sim.controls.accessLockedUntilMs
        ≤ ((calls.foldl (fun s c => Simulator.applyAction s c.1 c.2) sim)).controls.accessLockedUntilMs)
    ∧ (∀ (sim : Simulator) (nowMs : ℤ),
      nowMs + 10 * 60000 ≤ sim.controls.accessLockedUntilMs →
        (Simulator.applyAction sim lockAccessKey nowMs).controls.accessLockedUntilMs
          = sim.controls.accessLockedUntilMs) := by
  have hlock : ∀ (sim : Simulator) (nowMs : ℤ),
      (Simulator.applyAction sim lockAccessKey nowMs).controls.accessLockedUntilMs
        = max sim.controls.accessLockedUntilMs (nowMs + 10 * 60000) := by
    intro sim nowMs
    simp only [Simulator.applyAction]
    rw [if_neg (by decide), if_neg (by decide), if_neg (by decide), if_neg (by decide),
      if_neg (by decide), if_pos (by decide)]
  refine ⟨hlock, ?_, ?_⟩
  · intro sim calls
    induction calls generalizing sim with
    | nil => exact le_refl _
    | cons c cs ih =>
      exact le_trans (applyAction_lock_le sim c.1 c.2) (ih _)
  · intro sim nowMs h
    rw [hlock sim nowMs]
    exact max_eq_left h

/-- Witness for claim C6: a concrete simulator locked until
`t = 2,000,000 ms`; a second lock issued at `t = 100 ms` targets
`100 + 600,000 ms`, which is earlier, and leaves the lock end unchanged. -/
theorem claimC6_lock_monotone_witness :
    ((100 : ℤ) + 10 * 60000 ≤ lockSim.controls.accessLockedUntilMs)
    ∧ (Simulator.applyAction lockSim lockAccessKey 100).controls.accessLockedUntilMs
        = lockSim.controls.accessLockedUntilMs :=
  ⟨by decide, claimC6_lock_monotone.2.2 lockSim 100 (by decide)⟩

/-- Claim C7: `generateHistory` returns exactly 1441 points in the 24-hour
series and exactly 337 points in the 7-day series, each series in
non-decreasing timestamp order. -/
theorem claimC7_generateHistory_shape (sim : Simulator) (nowMs : ℤ) (zs : ℕ → TickNoise) :
    ((Simulator.generateHistory sim nowMs zs).1.1).length = 1441
    ∧ ((Simulator.generateHistory sim nowMs zs).1.2).length = 337
    ∧ (((Simulator.generateHistory sim nowMs zs).1.1).map Reading.timestampMs).Pairwise (· ≤ ·)
    ∧ (((Simulator.generateHistory sim nowMs zs).1.2).map Reading.timestampMs).Pairwise (· ≤ ·) := by
  refine ⟨?_, ?_, ?_, ?_⟩ <;> simp only [Simulator.generateHistory]
  · rw [runTicks_length]
    simp [history24hTimes]
  · rw [runTicks_length]
    simp [history7dTimes]
  · rw [runTicks_timestamps]
    unfold history24hTimes
    exact map_sub_mul_pairwise nowMs 1440 60000 (by norm_num) 1441
  · rw [runTicks_timestamps]
    unfold history7dTimes
    exact map_sub_mul_pairwise nowMs 336 1800000 (by norm_num) 337

/-- Claim C8: `evaluate` is pure and idempotent with respect to engine
state: it leaves the trend window (the engine's only state) unchanged, and
two consecutive calls with the same reading and standards return identical
assessments. -/
theorem claimC8_evaluate_pure (e : DecisionEngine) (reading : Reading) (standards : Standards) :
    (DecisionEngine.evaluateS e reading standards).2 = e
    ∧ (DecisionEngine.evaluateS ((DecisionEngine.evaluateS e reading standards).2)
        reading standards).1
      = (DecisionEngine.evaluateS e reading standards).1 :=
  ⟨rfl, rfl⟩

/-- On every key that is not an inherited `Object.prototype` member, the
full JS lookup produces exactly the standards entry that the total
restriction `getStandards` computes — the bridge between the two models. -/
theorem getStandardsJs_eq_entry (k : String) (h : k ∉ objectPrototypeKeys) :
    getStandardsJs k = JsLookup.entry (getStandards k) := by
  unfold getStandardsJs STANDARDS_BY_TYPE_lookup getStandards
  split_ifs with h1 h2 h3 h4 <;> simp_all [Option.getD]

/-- Claim C9 counterexample: `"constructor"` is not one of the table's keys,
yet the lookup does not fall back to the FOSSILS entry: bracket lookup finds
the inherited `Object.prototype.constructor` member, which is not nullish,
so `??` never fires and the source returns that member instead of a
standards entry. -/
theorem claimC9_counterexample :
    (constructorKey ∉ [r"FOSSILS", r"ORGANIC", r"METALLIC", r"STONE"])
    ∧ getStandardsJs constructorKey = JsLookup.inherited constructorKey
    ∧ getStandardsJs constructorKey ≠ JsLookup.entry FOSSILS_std := by
  refine ⟨by decide, by decide, by decide⟩

/-- Claim C9 (amended): the standards lookup is total (bracket property
access never raises); for every key that is neither one of the four table
keys nor an inherited `Object.prototype` member it falls back to the
FOSSILS entry; at an inherited `Object.prototype` key the lookup returns
the inherited member instead of falling back. -/
theorem claimC9_fallback_amended :
    (∀ k : String, k ∉ [r"FOSSILS", r"ORGANIC", r"METALLIC", r"STONE"] →
      k ∉ objectPrototypeKeys → getStandardsJs k = JsLookup.entry FOSSILS_std)
    ∧ (∀ k : String, k ∈ objectPrototypeKeys → getStandardsJs k = JsLookup.inherited k) := by
  constructor
  · intro k h hp
    have h1 : ¬ k = "FOSSILS" := fun e => h (by rw [e]; exact List.mem_cons_self _ _)
    have h2 : ¬ k = "ORGANIC" := fun e => h (by rw [e]; simp)
    have h3 : ¬ k = "METALLIC" := fun e => h (by rw [e]; simp)
    have h4 : ¬ k = "STONE" := fun e => h (by rw [e]; simp)
    unfold getStandardsJs STANDARDS_BY_TYPE_lookup
    rw [if_neg h1, if_neg h2, if_neg h3, if_neg h4, if_neg hp]
    rfl
  · intro k h
    simp only [objectPrototypeKeys, List.mem_cons, List.not_mem_nil, or_false] at h
    rcases h with rfl | rfl | rfl | rfl | rfl | rfl | rfl | rfl | rfl | rfl | rfl | rfl <;>
      decide

/-- Witness for the amended claim C9 at the unrecognized key `"GEMS"`,
which is neither a table key nor an `Object.prototype` member. -/
theorem claimC9_fallback_amended_witness :
    (gemsKey ∉ [r"FOSSILS", r"ORGANIC", r"METALLIC", r"STONE"])
    ∧ (gemsKey ∉ objectPrototypeKeys)
    ∧ getStandardsJs gemsKey = JsLookup.entry FOSSILS_std :=
  ⟨by decide, by decide, claimC9_fallback_amended.1 gemsKey (by decide) (by decide)⟩

/-- Claim C10: every division in the risk computation is guarded, so the
checked-division variants of the four risk helpers return `some` of the
unguarded value on every input: `riskFromRange` replaces the interpolant by
1 when the warn bound coincides with the safe bound, `riskFromMax` divides
by `max(0.001, warnMax − safeMax)`, the access contribution by
`max(1, maxOpensPerHourWarn)` and the vibration contribution by
`max(0.01, warnMax)`. -/
theorem claimC10_no_division_by_zero (x : ℚ) (r : RangeStd) (xm : ℚ) (m : MaxStd)
    (opens : ℕ) (a : AccessStd) (vib : ℚ) (v : MaxStd) :
    riskFromRangeChecked x r = some (riskFromRange x r)
    ∧ riskFromMaxChecked xm m = some (riskFromMax xm m)
    ∧ riskAccessChecked opens a = some (riskAccess opens a)
    ∧ riskVibrationChecked vib v = some (riskVibration vib v) := by
  refine ⟨?_, ?_, ?_, ?_⟩
  · by_cases hs : isBetweenInclusive x r.safe
    · simp [riskFromRangeChecked, riskFromRange, isBetweenInclusive, hs]
    · by_cases hw : isBetweenInclusive x r.warn
      · by_cases hm : (0 : ℚ) < (if x < r.safe.1 then r.safe.1 - r.warn.1 else r.warn.2 - r.safe.2)
        · have hne : (if x < r.safe.1 then r.safe.1 - r.warn.1 else r.warn.2 - r.safe.2) ≠ 0 :=
            ne_of_gt hm
          simp [riskFromRangeChecked, riskFromRange, isBetweenInclusive, hs, hw, hm,
            divChecked, hne]
        · simp [riskFromRangeChecked, riskFromRange, isBetweenInclusive, hs, hw, hm]
      · have h5 : (5 : ℚ) ≠ 0 := by norm_num
        simp [riskFromRangeChecked, riskFromRange, isBetweenInclusive, hs, hw, divChecked, h5]
  · have hden : max (0.001 : ℚ) (m.warnMax - m.safeMax) ≠ 0 :=
      ne_of_gt (lt_of_lt_of_le (by norm_num) (le_max_left _ _))
    have h3 : (3 : ℚ) ≠ 0 := by norm_num
    by_cases hsm : xm ≤ m.safeMax
    · simp [riskFromMaxChecked, riskFromMax, hsm]
    · by_cases hwm : xm ≤ m.warnMax
      · simp [riskFromMaxChecked, riskFromMax, hsm, hwm, divChecked, hden]
      · simp [riskFromMaxChecked, riskFromMax, hsm, hwm, divChecked, h3]
  · have hden : max (1 : ℚ) a.maxOpensPerHourWarn ≠ 0 :=
      ne_of_gt (lt_of_lt_of_le (by norm_num) (le_max_left _ _))
    simp [riskAccessChecked, riskAccess, divChecked, hden]
  · have hden : max (0.01 : ℚ) v.warnMax ≠ 0 :=
      ne_of_gt (lt_of_lt_of_le (by norm_num) (le_max_left _ _))
    simp [riskVibrationChecked, riskVibration, divChecked, hden]
